import Mathlib

/-!
Verification of the document-normalization layer and CRUD handlers of the
pingfood backend (`src/admin.py`), shallowly embedded in Lean 4.

Values of stored documents are modelled by the inductive `Value`: Python
`bytes` (and `bson.Binary`, which is a `bytes` subclass) become
`Value.bytes`, `bson.ObjectId` becomes `Value.objectId`, and a document
(Python `dict`) is an ordered association list of field name to value.
The database is a mapping from collection name to the list of inserted
documents, and each adapter operation takes an explicit `fault` flag
standing for "the awaited motor call raised an exception".
-/

/-- A BSON/JSON-like document value, modelling the Python values that
`admin.py` moves between the wire and the store.  `float` carries the
IEEE-754 bit pattern uninterpreted, since no modelled code path computes
with floats.  `timestamp` carries an opaque tick for `datetime` objects. -/
inductive Value where
  | null : Value
  | bool (b : Bool) : Value
  | int (n : Int) : Value
  | str (s : String) : Value
  | bytes (b : List Nat) : Value
  | objectId (oid : List Nat) : Value
  | timestamp (t : Int) : Value
  | float (bits : Nat) : Value
  | dict (kvs : List (String × Value)) : Value
  | list (elems : List Value) : Value

/-- A stored document: an ordered association list of field name to value,
modelling a Python `dict`. -/
abbrev Doc := List (String × Value)

mutual
/-- Structural equality on document values: the equality the store applies
when deciding whether a `$set` actually modified a document. -/
def Value.beq : Value → Value → Bool
  | .null, .null => true
  | .bool a, .bool c => a == c
  | .int a, .int c => a == c
  | .str a, .str c => a == c
  | .bytes a, .bytes c => a == c
  | .objectId a, .objectId c => a == c
  | .timestamp a, .timestamp c => a == c
  | .float a, .float c => a == c
  | .dict a, .dict c => beqFields a c
  | .list a, .list c => beqElems a c
  | _, _ => false

/-- Equality test on field lists, pointwise in order. -/
def beqFields : List (String × Value) → List (String × Value) → Bool
  | [], [] => true
  | (k1, v1) :: r1, (k2, v2) :: r2 => k1 == k2 && Value.beq v1 v2 && beqFields r1 r2
  | _, _ => false

/-- Equality test on element lists, pointwise in order. -/
def beqElems : List Value → List Value → Bool
  | [], [] => true
  | v1 :: r1, v2 :: r2 => Value.beq v1 v2 && beqElems r1 r2
  | _, _ => false
end

/-- The base64 alphabet (RFC 4648, as used by the Python function
base64.b64encode):
index 0–25 map to `A`–`Z`, 26–51 to `a`–`z`, 52–61 to `0`–`9`, 62 to `+`,
63 to `/`. -/
def b64Char (n : Nat) : Char :=
  if n < 26 then Char.ofNat (65 + n)
  else if n < 52 then Char.ofNat (97 + (n - 26))
  else if n < 62 then Char.ofNat (48 + (n - 52))
  else if n = 62 then '+'
  else '/'

/-- Base64-encode a byte list, three bytes to four characters, with `=`
padding, following `base64.b64encode`. -/
def b64encodeList : List Nat → List Char
  | a :: b :: c :: rest =>
      b64Char (a / 4) :: b64Char ((a % 4) * 16 + b / 16) ::
      b64Char ((b % 16) * 4 + c / 64) :: b64Char (c % 64) :: b64encodeList rest
  | [a, b] =>
      [b64Char (a / 4), b64Char ((a % 4) * 16 + b / 16), b64Char ((b % 16) * 4), '=']
  | [a] =>
      [b64Char (a / 4), b64Char ((a % 4) * 16), '=', '=']
  | [] => []

/-- Model of base64.b64encode(value).decode(utf-8): the base64 text of a
byte sequence. -/
def b64encode (b : List Nat) : String := String.mk (b64encodeList b)

/-- Value of one base64 alphabet character, `none` for a character outside
the alphabet. -/
def b64CharVal (c : Char) : Option Nat :=
  if 'A' ≤ c ∧ c ≤ 'Z' then some (c.toNat - 65)
  else if 'a' ≤ c ∧ c ≤ 'z' then some (c.toNat - 97 + 26)
  else if '0' ≤ c ∧ c ≤ '9' then some (c.toNat - 48 + 52)
  else if c = '+' then some 62
  else if c = '/' then some 63
  else none

/-- Base64-decode a character list (strict padding, as in
`base64.b64decode` on well-formed input); `none` on malformed input. -/
def b64decodeList : List Char → Option (List Nat)
  | [] => some []
  | [c1, c2, '=', '='] =>
      match b64CharVal c1, b64CharVal c2 with
      | some n1, some n2 => some [n1 * 4 + n2 / 16]
      | _, _ => none
  | [c1, c2, c3, '='] =>
      match b64CharVal c1, b64CharVal c2, b64CharVal c3 with
      | some n1, some n2, some n3 => some [n1 * 4 + n2 / 16, (n2 % 16) * 16 + n3 / 4]
      | _, _, _ => none
  | c1 :: c2 :: c3 :: c4 :: rest =>
      match b64CharVal c1, b64CharVal c2, b64CharVal c3, b64CharVal c4,
            b64decodeList rest with
      | some n1, some n2, some n3, some n4, some bs =>
          some ((n1 * 4 + n2 / 16) :: ((n2 % 16) * 16 + n3 / 4) ::
                ((n3 % 4) * 64 + n4) :: bs)
      | _, _, _, _, _ => none
  | _ => none

/-- Model of base64.b64decode on a base64 string: the raw bytes, or
`none` on malformed input (where Python would raise). -/
def b64decode (s : String) : Option (List Nat) := b64decodeList s.data

/-- One lowercase hexadecimal digit. -/
def hexDigit (n : Nat) : Char :=
  match n with
  | 0 => '0' | 1 => '1' | 2 => '2' | 3 => '3' | 4 => '4'
  | 5 => '5' | 6 => '6' | 7 => '7' | 8 => '8' | 9 => '9'
  | 10 => 'a' | 11 => 'b' | 12 => 'c' | 13 => 'd' | 14 => 'e'
  | _ => 'f'

/-- The two hex digits of one byte. -/
def byteHexChars (x : Nat) : List Char := [hexDigit (x / 16), hexDigit (x % 16)]

/-- Model of str(ObjectId(...)): the canonical lowercase hexadecimal
rendering of the identifier bytes, two digits per byte. -/
def hexOfBytes (b : List Nat) : String := String.mk (b.flatMap byteHexChars)

/-- Strict UTF-8 decoding of a byte list into characters, as the Python
method bytes.decode(utf-8) performs it: rejects truncated sequences,
continuation bytes out of place, overlong encodings, surrogate code
points and code points above `0x10FFFF`. -/
def utf8DecodeAux : List Nat → Option (List Char)
  | [] => some []
  | b1 :: rest =>
    if b1 < 0x80 then
      (utf8DecodeAux rest).map (fun cs => Char.ofNat b1 :: cs)
    else if b1 < 0xC2 then
      none
    else if b1 < 0xE0 then
      match rest with
      | b2 :: rest2 =>
          if 0x80 ≤ b2 ∧ b2 < 0xC0 then
            (utf8DecodeAux rest2).map
              (fun cs => Char.ofNat ((b1 - 0xC0) * 64 + (b2 - 0x80)) :: cs)
          else none
      | [] => none
    else if b1 < 0xF0 then
      match rest with
      | b2 :: b3 :: rest3 =>
          if (if b1 = 0xE0 then 0xA0 ≤ b2 ∧ b2 < 0xC0
              else if b1 = 0xED then 0x80 ≤ b2 ∧ b2 < 0xA0
              else 0x80 ≤ b2 ∧ b2 < 0xC0) ∧ 0x80 ≤ b3 ∧ b3 < 0xC0 then
            (utf8DecodeAux rest3).map
              (fun cs =>
                Char.ofNat ((b1 - 0xE0) * 4096 + (b2 - 0x80) * 64 + (b3 - 0x80)) :: cs)
          else none
      | _ => none
    else if b1 < 0xF5 then
      match rest with
      | b2 :: b3 :: b4 :: rest4 =>
          if (if b1 = 0xF0 then 0x90 ≤ b2 ∧ b2 < 0xC0
              else if b1 = 0xF4 then 0x80 ≤ b2 ∧ b2 < 0x90
              else 0x80 ≤ b2 ∧ b2 < 0xC0) ∧
             0x80 ≤ b3 ∧ b3 < 0xC0 ∧ 0x80 ≤ b4 ∧ b4 < 0xC0 then
            (utf8DecodeAux rest4).map
              (fun cs =>
                Char.ofNat ((b1 - 0xF0) * 262144 + (b2 - 0x80) * 4096 +
                            (b3 - 0x80) * 64 + (b4 - 0x80)) :: cs)
          else none
      | _ => none
    else none

/-- Model of bytes.decode(utf-8) on a byte list: the decoded string, or
`none` where Python raises UnicodeDecodeError. -/
def utf8Decode (b : List Nat) : Option String :=
  (utf8DecodeAux b).map String.mk

/-- Function handle_non_utf8 from src/admin.py:

    if isinstance(value, bytes): return base64.b64encode(value).decode(utf-8)
    try: return value.decode(utf-8)
    except (UnicodeDecodeError, AttributeError): return value

The first branch catches every byte sequence (`bytes` and its subclass
`bson.Binary`) and base64-encodes it unconditionally.  Of the remaining
Python values in the modelled universe (`str`, `int`, `bool`, `float`,
`None`, `ObjectId`, `datetime`, `dict`, `list`), none has a `decode`
attribute, so the `try` branch always raises `AttributeError` and the
value is returned unchanged. -/
def handle_non_utf8 : Value → Value
  | .bytes b => .str (b64encode b)
  | v => v

mutual
/-- Function convert_objectid_to_str from src/admin.py:

    if isinstance(obj, dict):
        return {key: convert_objectid_to_str(value) if isinstance(value, (dict, list))
                     else str(value) if isinstance(value, ObjectId)
                     else handle_non_utf8(value)
                for key, value in obj.items()}
    elif isinstance(obj, list):
        return [convert_objectid_to_str(item) for item in obj]
    else:
        return handle_non_utf8(obj)
-/
def convert_objectid_to_str : Value → Value
  | .dict kvs => .dict (convertFields kvs)
  | .list elems => .list (convertElems elems)
  | v => handle_non_utf8 v

/-- The per-value conditional of the dict comprehension inside
`convert_objectid_to_str` (the recursive calls on nested dicts and lists
are unfolded one step so the mutual recursion is structural). -/
def convertDictValue : Value → Value
  | .dict kvs => .dict (convertFields kvs)
  | .list es => .list (convertElems es)
  | .objectId oid => .str (hexOfBytes oid)
  | v => handle_non_utf8 v

/-- The dict comprehension of `convert_objectid_to_str`, field by field. -/
def convertFields : List (String × Value) → List (String × Value)
  | [] => []
  | (k, v) :: rest => (k, convertDictValue v) :: convertFields rest

/-- The list comprehension of `convert_objectid_to_str`, element by
element. -/
def convertElems : List Value → List Value
  | [] => []
  | v :: rest => convert_objectid_to_str v :: convertElems rest
end

/-! ## The document-store adapter (`class Database` in `src/admin.py`)

The store is a list of named collections, each a list of documents in
insertion order.  Every adapter method wraps its motor call in
`try/except`; the explicit `fault : Bool` argument of each modelled
operation states whether that call raised. -/

/-- The state of the document store: collection name to documents in
insertion order. -/
structure DBState where
  collections : List (String × List Doc)

/-- The documents of a named collection (a collection never written is
empty). -/
def DBState.getColl (st : DBState) (name : String) : List Doc :=
  (st.collections.lookup name).getD []

/-- Helper for `DBState.setColl`: replace the documents of the named
collection, creating the collection if absent. -/
def setCollList : List (String × List Doc) → String → List Doc → List (String × List Doc)
  | [], name, docs => [(name, docs)]
  | (n, ds) :: rest, name, docs =>
      if n = name then (name, docs) :: rest else (n, ds) :: setCollList rest name docs

/-- Replace the documents of the named collection. -/
def DBState.setColl (st : DBState) (name : String) (docs : List Doc) : DBState :=
  ⟨setCollList st.collections name docs⟩

/-- Whether a document satisfies a filter: an exact-match conjunction,
every filter field present in the document with an equal value (the only
filters the endpoints build are single-field equalities on natural
keys). -/
def matchesQuery (d : Doc) (q : Doc) : Bool :=
  q.all fun kv =>
    match d.lookup kv.1 with
    | some v' => Value.beq v' kv.2
    | none => false

/-- The first document of a collection satisfying a filter, in insertion
order — the document `find_one` returns. -/
def findFirst (docs : List Doc) (q : Doc) : Option Doc :=
  docs.find? (fun d => matchesQuery d q)

/-- Mongo dollar-set of one field: replace the value in place if the
field exists, else append the field. -/
def setField (d : Doc) (k : String) (v : Value) : Doc :=
  if (d.map Prod.fst).contains k then
    d.map fun kv => if kv.1 = k then (kv.1, v) else kv
  else d ++ [(k, v)]

/-- Mongo dollar-set of an update document, field by field. -/
def setFields (d : Doc) (upd : Doc) : Doc :=
  upd.foldl (fun acc kv => setField acc kv.1 kv.2) d

/-- Equality test on whole documents, used by the store to decide whether
a `$set` modified the matched document. -/
def docBeq (d1 d2 : Doc) : Bool := beqFields d1 d2

/-- The update operation inside the store: apply the set to the first document
matching the filter; the returned count is `modified_count` (1 only if the
matched document actually changed, 0 if nothing matched or the `$set` was
a no-op). -/
def updateFirstMatch (docs : List Doc) (q upd : Doc) : List Doc × Nat :=
  match docs with
  | [] => ([], 0)
  | d :: rest =>
      if matchesQuery d q then
        (setFields d upd :: rest, if docBeq (setFields d upd) d then 0 else 1)
      else
        (d :: (updateFirstMatch rest q upd).1, (updateFirstMatch rest q upd).2)

/-- The delete operation inside the store: remove the first document
matching the filter; the returned count is `deleted_count`. -/
def deleteFirstMatch (docs : List Doc) (q : Doc) : List Doc × Nat :=
  match docs with
  | [] => ([], 0)
  | d :: rest =>
      if matchesQuery d q then (rest, 1)
      else (d :: (deleteFirstMatch rest q).1, (deleteFirstMatch rest q).2)

/-- Model of fastapi.HTTPException, as raised by the adapter and the
endpoints. -/
structure HTTPException where
  status_code : Nat
  detail : String
deriving DecidableEq

/-- The motor `InsertOneResult`, of which the endpoints only read
`acknowledged`. -/
structure InsertOneResult where
  acknowledged : Bool
deriving DecidableEq

/-- Method Database.insert_one: append the document to the collection and
return the result; on a storage fault, raise
`HTTPException(500, "Internal Server Error")` (the one adapter operation
that surfaces faults to the caller). -/
def Database.insert_one (fault : Bool) (st : DBState) (collection_name : String)
    (document : Doc) : Except HTTPException (DBState × InsertOneResult) :=
  if fault then .error ⟨500, "Internal Server Error"⟩
  else .ok (st.setColl collection_name (st.getColl collection_name ++ [document]), ⟨true⟩)

/-- Method Database.find_one: the first matching document, normalized through
`convert_objectid_to_str`; `None` when nothing matches (or the matched
document is falsy, i.e. empty) and also `None` on a storage fault — the
fault is swallowed. -/
def Database.find_one (fault : Bool) (st : DBState) (collection_name : String)
    (query : Doc) : Option Value :=
  if fault then none
  else
    match findFirst (st.getColl collection_name) query with
    | some d => if d.isEmpty then none else some (convert_objectid_to_str (.dict d))
    | none => none

/-- Method Database.update_one: set-update on the first matching document,
returning the new state and the result dict
`{"modified_count": result.modified_count}`; on a storage fault the
result dict is `{}` and the state is unchanged. -/
def Database.update_one (fault : Bool) (st : DBState) (collection_name : String)
    (query update_data : Doc) : DBState × List (String × Nat) :=
  if fault then (st, [])
  else
    (st.setColl collection_name
       (updateFirstMatch (st.getColl collection_name) query update_data).1,
     [("modified_count",
       (updateFirstMatch (st.getColl collection_name) query update_data).2)])

/-- Method Database.delete_one: remove the first matching document, returning
the new state and the result dict `{"deleted_count": result.deleted_count}`;
on a storage fault the result dict is `{}` and the state is unchanged. -/
def Database.delete_one (fault : Bool) (st : DBState) (collection_name : String)
    (query : Doc) : DBState × List (String × Nat) :=
  if fault then (st, [])
  else
    (st.setColl collection_name
       (deleteFirstMatch (st.getColl collection_name) query).1,
     [("deleted_count", (deleteFirstMatch (st.getColl collection_name) query).2)])

/-- Lookup in a result dict with default 0: the Python expression
result.get(key, 0). -/
def dictGetNat (result : List (String × Nat)) (key : String) : Nat :=
  (result.lookup key).getD 0

/-- The success guard of the endpoints on an update/delete result dict:
`result and result.get(key, 0) > 0` (an empty dict is falsy in Python, so
the empty dict of a fault fails the guard exactly like a zero count). -/
def resultCountPositive (result : List (String × Nat)) (key : String) : Bool :=
  !result.isEmpty && decide (dictGetNat result key > 0)

/-! ## Entity schemas and endpoint handlers

Each handler is modelled as a state transformer returning the post-call
store together with either the JSON response body or the raised
`HTTPException`. -/

/-- The `Branch` pydantic model.  `branch_added` is an optional timestamp
(`None` when the payload omits it); the two reference fields are optional
strings. -/
structure Branch where
  branch_id : Int
  branch_name : String
  branch_email : String
  branch_phone : String
  branch_website : String
  branch_desc : String
  branch_added : Option Int
  branch_active : Bool
  restaurants_id : Option String
  address_id : Option String

/-- An optional string field as it appears in `model.dict()`. -/
def optStrVal : Option String → Value
  | some s => .str s
  | none => .null

/-- Model of branch.dict(): the full document inserted by
`create_branch`. -/
def Branch.toDoc (b : Branch) : Doc :=
  [("branch_id", .int b.branch_id),
   ("branch_name", .str b.branch_name),
   ("branch_email", .str b.branch_email),
   ("branch_phone", .str b.branch_phone),
   ("branch_website", .str b.branch_website),
   ("branch_desc", .str b.branch_desc),
   ("branch_added", match b.branch_added with | some t => .timestamp t | none => .null),
   ("branch_active", .bool b.branch_active),
   ("restaurants_id", optStrVal b.restaurants_id),
   ("address_id", optStrVal b.address_id)]

/-- Endpoint POST /create-branch/: default `branch_added` to the current time
when absent (`None` is the only falsy `Optional[datetime]`), insert the
full document, and answer with the message and the echoed natural key.
No uniqueness check of any kind precedes the insert. -/
def create_branch (fault : Bool) (st : DBState) (branch : Branch) (now : Int) :
    DBState × Except HTTPException Doc :=
  let branch :=
    if branch.branch_added.isNone then { branch with branch_added := some now } else branch
  match Database.insert_one fault st "Branch" branch.toDoc with
  | .error e => (st, .error e)
  | .ok (st', r) =>
      if r.acknowledged then
        (st', .ok [("message", .str "Branch created successfully"),
                   ("branch_id", .int branch.branch_id)])
      else (st', .error ⟨400, "Failed to create branch"⟩)

/-- Endpoint GET /branch/(branch_id): the normalized document, or 404. -/
def get_branch (fault : Bool) (st : DBState) (branch_id : Int) :
    Except HTTPException Value :=
  match Database.find_one fault st "Branch" [("branch_id", .int branch_id)] with
  | some result => .ok result
  | none => .error ⟨404, "Branch not found"⟩

/-- Model of branch.dict(exclude_unset=True): exactly the fields
explicitly present in the update payload, in declaration order. -/
structure BranchUpdate where
  fields : Doc

/-- Endpoint PUT /branch/(branch_id): reject an empty filtered payload with 400
before any storage call; otherwise forward exactly the filtered fields to
`update_one` and demand a positive `modified_count`. -/
def update_branch (fault : Bool) (st : DBState) (branch_id : Int)
    (branch_dict : BranchUpdate) : DBState × Except HTTPException Doc :=
  if branch_dict.fields.isEmpty then
    (st, .error ⟨400, "No data provided to update"⟩)
  else
    let r := Database.update_one fault st "Branch"
      [("branch_id", .int branch_id)] branch_dict.fields
    if resultCountPositive r.2 "modified_count" then
      (r.1, .ok [("message", .str "Branch updated successfully")])
    else (r.1, .error ⟨400, "Failed to update branch"⟩)

/-- Endpoint DELETE /branch/(branch_id): existence check through `find_one`
first (400 when absent), then `delete_one` with a positive
`deleted_count` demanded. -/
def delete_branch (findFault delFault : Bool) (st : DBState) (branch_id : Int) :
    DBState × Except HTTPException Doc :=
  match Database.find_one findFault st "Branch" [("branch_id", .int branch_id)] with
  | none => (st, .error ⟨400, "Branch not found"⟩)
  | some _ =>
      let r := Database.delete_one delFault st "Branch"
        [("branch_id", .int branch_id)]
      if resultCountPositive r.2 "deleted_count" then
        (r.1, .ok [("message", .str "Branch deleted successfully")])
      else (r.1, .error ⟨400, "Failed to delete branch"⟩)

/-- Endpoint GET /branches/: find().to_list(length=200) — the first 200
stored documents — normalized as one list by `convert_objectid_to_str`. -/
def get_all_branches (st : DBState) : Value :=
  convert_objectid_to_str (.list (((st.getColl "Branch").take 200).map Value.dict))

/-- The declared fields of the `Order` pydantic model, in declaration
order.  Note that neither `restaurants_id` nor `address_id` is among
them. -/
def orderFieldNames : List String :=
  ["order_id", "customer", "order_type", "store", "items", "total_price",
   "payment_method", "order_status", "order_date"]

/-- One key of the before-mode validator `convert_binary_fields_to_base64`
on `Order`: if the raw payload holds a Binary (bytes) value at the key,
replace it with its base64 text. -/
def convertBinaryKeyToBase64 (values : Doc) (k : String) : Doc :=
  match values.lookup k with
  | some (.bytes b) => setField values k (.str (b64encode b))
  | _ => values

/-- The before-mode validator of `Order`, applied to the raw inbound
payload: `restaurants_id` first, then `address_id`. -/
def convert_binary_fields_to_base64 (values : Doc) : Doc :=
  convertBinaryKeyToBase64 (convertBinaryKeyToBase64 values "restaurants_id") "address_id"

/-- One key of the after-mode validator `convert_base64_to_binary` on
`Order`: if the key is one of the fields of the constructed model and
holds a string, replace it with the decoded bytes.  In pydantic v2 the
after-mode validator receives the constructed model, which carries only
the declared `Order` fields; the membership test (restaurants_id in
values) is modelled, charitably, as field-name membership — the actual
Python semantics iterates (name, value) pairs, so the test is always
false there, and this model can only convert more, never less, than the
code. -/
def convertBase64KeyToBinary (values : Doc) (k : String) : Doc :=
  if (values.map Prod.fst).contains k then
    match values.lookup k with
    | some (.str s) =>
        match b64decode s with
        | some b => setField values k (.bytes b)
        | none => values
    | _ => values
  else values

/-- The after-mode validator of `Order`, applied to the fields of the
constructed model: `restaurants_id` first, then `address_id`. -/
def convert_base64_to_binary (values : Doc) : Doc :=
  convertBase64KeyToBinary (convertBase64KeyToBinary values "restaurants_id") "address_id"

/-- Construction of an `Order` model from a raw payload: the
before-mode validator runs on the raw dict, the nine declared fields
are validated and projected out (extra keys are dropped, as pydantic does
by default), and the after-mode validator runs on the result.
Returns `none` where pydantic would raise a validation error. -/
def mkOrder (raw : Doc) : Option Doc :=
  let raw' := convert_binary_fields_to_base64 raw
  match raw'.lookup "order_id", raw'.lookup "customer", raw'.lookup "order_type",
        raw'.lookup "store", raw'.lookup "items", raw'.lookup "total_price",
        raw'.lookup "payment_method", raw'.lookup "order_status",
        raw'.lookup "order_date" with
  | some (.str oid), some (.dict c), some (.str ot), some (.dict s),
    some (.list its), some (.float tp), some (.str pm), some (.str osv),
    some (.timestamp od) =>
      if its.all (fun v => match v with | .dict _ => true | _ => false) then
        some (convert_base64_to_binary
          [("order_id", .str oid), ("customer", .dict c), ("order_type", .str ot),
           ("store", .dict s), ("items", .list its), ("total_price", .float tp),
           ("payment_method", .str pm), ("order_status", .str osv),
           ("order_date", .timestamp od)])
      else none
  | _, _, _, _, _, _, _, _, _ => none

/-- Endpoint POST /create-order/: insert order.dict() into `orders` and
answer with the message and the echoed natural key. -/
def create_order (fault : Bool) (st : DBState) (orderDoc : Doc) :
    DBState × Except HTTPException Doc :=
  match Database.insert_one fault st "orders" orderDoc with
  | .error e => (st, .error e)
  | .ok (st', r) =>
      if r.acknowledged then
        (st', .ok [("message", .str "Order created successfully"),
                   ("order_id", (orderDoc.lookup "order_id").getD .null)])
      else (st', .error ⟨400, "Failed to create order"⟩)

/-! ## Auxiliary definitions for the claim statements -/

/-- A character of the lowercase hexadecimal alphabet. -/
def isLowerHexChar (c : Char) : Bool :=
  ('0' ≤ c && c ≤ '9') || ('a' ≤ c && c ≤ 'f')

/-- A sample 12-byte storage identifier used in concrete counterexamples. -/
def oid12 : List Nat :=
  [0x50, 0x7f, 0x19, 0x1e, 0x1a, 0x2b, 0x3c, 0x4d, 0x5e, 0x6f, 0x70, 0x81]

/-- Whether a stored document carries the given integer under the
`branch_id` field. -/
def branchKeyMatches (bid : Int) (d : Doc) : Bool :=
  match d.lookup "branch_id" with
  | some (Value.int n) => n == bid
  | _ => false

/-- Number of documents of the `Branch` collection carrying the given
natural key. -/
def countBranchDocs (st : DBState) (bid : Int) : Nat :=
  ((st.getColl "Branch").filter (branchKeyMatches bid)).length

/-- A concrete valid `Order` payload additionally carrying the reference
field `restaurants_id` as the base64 text `AQID` (the encoding of the
bytes `[1, 2, 3]`). -/
def orderRawPayload : Doc :=
  [("order_id", Value.str "o1"), ("customer", Value.dict []),
   ("order_type", Value.str "pickup"), ("store", Value.dict []),
   ("items", Value.list []), ("total_price", Value.float 0),
   ("payment_method", Value.str "card"), ("order_status", Value.str "placed"),
   ("order_date", Value.timestamp 0), ("restaurants_id", Value.str "AQID")]

/-- The document that `Order` construction and `create_order` actually
store for `orderRawPayload`: the nine declared fields only. -/
def orderStoredDoc : Doc :=
  [("order_id", Value.str "o1"), ("customer", Value.dict []),
   ("order_type", Value.str "pickup"), ("store", Value.dict []),
   ("items", Value.list []), ("total_price", Value.float 0),
   ("payment_method", Value.str "card"), ("order_status", Value.str "placed"),
   ("order_date", Value.timestamp 0)]

/-- A store whose `Branch` collection holds 250 (empty) documents. -/
def st250 : DBState := ⟨[("Branch", List.replicate 250 [])]⟩

/-- A store whose `Branch` collection holds exactly one document with
natural key 1. -/
def stOneBranch : DBState := ⟨[("Branch", [[("branch_id", Value.int 1)]])]⟩

/-! ## Sanity checks on the modelled library functions -/

example : convertDictValue (.dict [("x", .objectId [1])]) =
    convert_objectid_to_str (.dict [("x", .objectId [1])]) := rfl
example : convertDictValue (.list [.objectId [1]]) =
    convert_objectid_to_str (.list [.objectId [1]]) := rfl
example : utf8Decode [104, 101, 108, 108, 111] = some "hello" := by decide
example : utf8Decode [0xFF, 0xFE] = none := by decide
example : utf8Decode [1, 2, 3] = some "\x01\x02\x03" := by decide
example : b64encode [104, 101, 108, 108, 111] = "aGVsbG8=" := by decide
example : b64encode [1, 2, 3] = "AQID" := by decide
example : b64encode [0xFF, 0xFE] = "//4=" := by decide
example : b64decode "AQID" = some [1, 2, 3] := by decide
example : hexOfBytes [0x50, 0x7f, 0x19, 0x1e] = "507f191e" := by decide

/-! ## Helper lemmas -/

theorem isLowerHexChar_hexDigit (n : Nat) : isLowerHexChar (hexDigit n) = true := by
  match n with
  | 0 | 1 | 2 | 3 | 4 | 5 | 6 | 7 | 8 | 9 | 10 | 11 | 12 | 13 | 14 => decide
  | n + 15 =>
      have h : hexDigit (n + 15) = 'f' := rfl
      rw [h]; decide

theorem hexDigit_injOn (a b : Nat) (ha : a < 16) (hb : b < 16)
    (h : hexDigit a = hexDigit b) : a = b := by
  revert h
  revert hb
  revert b
  revert ha
  revert a
  decide

theorem hexOfBytes_injOn (b1 b2 : List Nat) (h1 : ∀ x ∈ b1, x < 256)
    (h2 : ∀ x ∈ b2, x < 256) (h : hexOfBytes b1 = hexOfBytes b2) : b1 = b2 := by
  have hchars : b1.flatMap byteHexChars = b2.flatMap byteHexChars := by
    have := congrArg String.data h
    simpa [hexOfBytes] using this
  clear h
  induction b1 generalizing b2 with
  | nil =>
      cases b2 with
      | nil => rfl
      | cons y ys => simp [byteHexChars] at hchars
  | cons x xs ih =>
      cases b2 with
      | nil => simp [byteHexChars] at hchars
      | cons y ys =>
          simp [byteHexChars] at hchars
          obtain ⟨hhi, hlo, hrest⟩ := hchars
          have hx := h1 x (by simp)
          have hy := h2 y (by simp)
          have e1 : x / 16 = y / 16 :=
            hexDigit_injOn _ _ (by omega) (by omega) hhi
          have e2 : x % 16 = y % 16 :=
            hexDigit_injOn _ _ (by omega) (by omega) hlo
          have hxy : x = y := by omega
          have := ih ys (fun z hz => h1 z (List.mem_cons_of_mem _ hz))
            (fun z hz => h2 z (List.mem_cons_of_mem _ hz)) hrest
          simp [hxy, this]

theorem isLowerHexChar_of_mem_hexOfBytes (b : List Nat) :
    ∀ c ∈ (hexOfBytes b).data, isLowerHexChar c = true := by
  intro c hc
  have hc' : c ∈ b.flatMap byteHexChars := by simpa [hexOfBytes] using hc
  rw [List.mem_flatMap] at hc'
  obtain ⟨x, _, hcx⟩ := hc'
  simp [byteHexChars] at hcx
  rcases hcx with h | h <;> simp [h, isLowerHexChar_hexDigit]

theorem convertElems_eq_map (es : List Value) :
    convertElems es = es.map convert_objectid_to_str := by
  induction es with
  | nil => rfl
  | cons v rest ih => simp [convertElems, ih]

theorem convertFields_eq_map (kvs : List (String × Value)) :
    convertFields kvs = kvs.map fun kv => (kv.1, convertDictValue kv.2) := by
  induction kvs with
  | nil => rfl
  | cons kv rest ih =>
      obtain ⟨k, v⟩ := kv
      simp [convertFields, ih]

theorem lookup_convertFields (kvs : List (String × Value)) (k : String)
    (oid : List Nat) (h : kvs.lookup k = some (Value.objectId oid)) :
    (convertFields kvs).lookup k = some (Value.str (hexOfBytes oid)) := by
  induction kvs with
  | nil => simp [List.lookup] at h
  | cons kv rest ih =>
      obtain ⟨k1, v1⟩ := kv
      rw [convertFields]
      rw [List.lookup] at h ⊢
      cases hk : k == k1 with
      | true =>
          rw [hk] at h
          simp at h
          simp [h, convertDictValue]
      | false =>
          rw [hk] at h
          simpa using ih h

theorem lookup_setCollList_self (colls : List (String × List Doc))
    (name : String) (docs : List Doc) :
    (setCollList colls name docs).lookup name = some docs := by
  induction colls with
  | nil => simp [setCollList, List.lookup]
  | cons e rest ih =>
      obtain ⟨n, ds⟩ := e
      by_cases h : n = name
      · subst h; simp [setCollList, List.lookup]
      · simp only [setCollList, if_neg h, List.lookup]
        have : (name == n) = false := by
          simpa [beq_eq_false_iff_ne] using fun he => h he.symm
        rw [this]
        exact ih

theorem getColl_setColl_self (st : DBState) (name : String) (docs : List Doc) :
    (st.setColl name docs).getColl name = docs := by
  simp [DBState.setColl, DBState.getColl, lookup_setCollList_self]

theorem lookup_setCollList_ne (colls : List (String × List Doc))
    (name c : String) (docs : List Doc) (h : c ≠ name) :
    (setCollList colls name docs).lookup c = colls.lookup c := by
  have hcn : (c == name) = false := by simpa [beq_eq_false_iff_ne] using h
  induction colls with
  | nil => simp [setCollList, List.lookup, hcn]
  | cons e rest ih =>
      obtain ⟨n, ds⟩ := e
      by_cases hn : n = name
      · subst hn
        simp only [setCollList, if_pos rfl, List.lookup, hcn]
      · simp only [setCollList, if_neg hn, List.lookup]
        cases hc : c == n with
        | true => rfl
        | false => exact ih

theorem getColl_setColl_ne (st : DBState) (name c : String) (docs : List Doc)
    (h : c ≠ name) : (st.setColl name docs).getColl c = st.getColl c := by
  simp [DBState.setColl, DBState.getColl, lookup_setCollList_ne _ _ _ _ h]

theorem updateFirstMatch_nomatch (docs : List Doc) (q upd : Doc)
    (h : ∀ d ∈ docs, matchesQuery d q = false) :
    updateFirstMatch docs q upd = (docs, 0) := by
  induction docs with
  | nil => rfl
  | cons d rest ih =>
      have hd := h d (by simp)
      have hrest := ih fun d2 hd2 => h d2 (by simp [hd2])
      simp [updateFirstMatch, hd, hrest]

theorem updateFirstMatch_mem (docs : List Doc) (q upd : Doc) :
    ∀ d ∈ (updateFirstMatch docs q upd).1,
      d ∈ docs ∨ ∃ d0, d0 ∈ docs ∧ d = setFields d0 upd := by
  induction docs with
  | nil => intro d hd; simp [updateFirstMatch] at hd
  | cons d1 rest ih =>
      intro d hd
      by_cases hm : matchesQuery d1 q
      · simp [updateFirstMatch, hm] at hd
        rcases hd with h | h
        · right; exact ⟨d1, by simp, h⟩
        · left; simp [h]
      · simp [updateFirstMatch, hm] at hd
        rcases hd with h | h
        · left; simp [h]
        · rcases ih d h with h2 | ⟨d0, hd0, he⟩
          · left; simp [h2]
          · right; exact ⟨d0, by simp [hd0], he⟩

theorem lookup_map_setKey_ne (d : Doc) (k1 k : String) (v : Value)
    (hk : (k == k1) = false) :
    ((d.map fun kv => if kv.1 = k1 then (kv.1, v) else kv).lookup k) = d.lookup k := by
  induction d with
  | nil => rfl
  | cons kv rest ih =>
      obtain ⟨k0, v0⟩ := kv
      by_cases h0 : k0 = k1
      · subst h0
        rw [List.map_cons]
        simp only [if_pos rfl]
        rw [List.lookup, List.lookup, hk]
        simpa [hk] using ih
      · rw [List.map_cons]
        simp only [if_neg h0]
        rw [List.lookup, List.lookup]
        cases hc : k == k0 with
        | true => rfl
        | false => exact ih

theorem lookup_append_single_ne (d : Doc) (k1 k : String) (v : Value)
    (hk : (k == k1) = false) : ((d ++ [(k1, v)]).lookup k) = d.lookup k := by
  induction d with
  | nil => simp [List.lookup, hk]
  | cons kv rest ih =>
      obtain ⟨k0, v0⟩ := kv
      rw [List.cons_append, List.lookup, List.lookup]
      cases hc : k == k0 with
      | true => rfl
      | false => exact ih

theorem lookup_setField_ne (d : Doc) (k1 k : String) (v : Value)
    (hk : (k == k1) = false) : (setField d k1 v).lookup k = d.lookup k := by
  rw [setField]
  by_cases hc : (d.map Prod.fst).contains k1
  · rw [if_pos hc]; exact lookup_map_setKey_ne d k1 k v hk
  · rw [if_neg hc]; exact lookup_append_single_ne d k1 k v hk

theorem lookup_setFields_of_not_mem (d upd : Doc) (k : String)
    (h : upd.lookup k = none) : (setFields d upd).lookup k = d.lookup k := by
  induction upd generalizing d with
  | nil => rfl
  | cons kv rest ih =>
      obtain ⟨k1, v1⟩ := kv
      rw [List.lookup] at h
      cases hk : k == k1 with
      | true => rw [hk] at h; simp at h
      | false =>
          rw [hk] at h
          simp only at h
          have : setFields d ((k1, v1) :: rest) = setFields (setField d k1 v1) rest := rfl
          rw [this, ih (setField d k1 v1) h, lookup_setField_ne d k1 k v1 hk]

/-! ## Claim theorems -/

/-- C1, counterexample: the read-path renderer does not attempt UTF-8
decoding on a byte sequence.  The bytes of the text `hello` decode as
valid UTF-8, yet `convert_objectid_to_str` returns their base64 text
`aGVsbG8=`, not the decoded text `hello`, because `handle_non_utf8`
base64-encodes every `bytes` value in its first branch before the
`decode` attempt can run. -/
theorem c1_counterexample_utf8_bytes_rendered_base64 :
    utf8Decode [104, 101, 108, 108, 111] = some "hello" ∧
    convert_objectid_to_str (Value.bytes [104, 101, 108, 108, 111]) =
      Value.str (b64encode [104, 101, 108, 108, 111]) ∧
    b64encode [104, 101, 108, 108, 111] = "aGVsbG8=" ∧
    convert_objectid_to_str (Value.bytes [104, 101, 108, 108, 111]) ≠
      Value.str "hello" := by
  refine ⟨by decide, rfl, by decide, ?_⟩
  intro hcontra
  have h : b64encode [104, 101, 108, 108, 111] = "hello" := by
    injection hcontra
  exact absurd h (by decide)

/-- C1, amended: every byte-sequence scalar is rendered as its base64
text unconditionally — even when, as the hypothesis states, the bytes
decode as valid UTF-8 text — both when rendered as a bare scalar and at
a mapping-value position; no UTF-8 decode attempt is ever made for
`bytes` values. -/
theorem c1_bytes_rendered_base64_even_when_utf8 (b : List Nat) (s : String)
    (h : utf8Decode b = some s) :
    convert_objectid_to_str (Value.bytes b) = Value.str (b64encode b) ∧
    convertDictValue (Value.bytes b) = Value.str (b64encode b) ∧
    handle_non_utf8 (Value.bytes b) = Value.str (b64encode b) :=
  ⟨rfl, rfl, rfl⟩

/-- C1, witness: the amended theorem applied to the UTF-8 decodable bytes
of `hello`. -/
theorem c1_bytes_rendered_base64_even_when_utf8_witness :
    convert_objectid_to_str (Value.bytes [104, 101, 108, 108, 111]) =
      Value.str (b64encode [104, 101, 108, 108, 111]) :=
  (c1_bytes_rendered_base64_even_when_utf8 [104, 101, 108, 108, 111] "hello"
    (by decide)).1

/-- C2: for every byte sequence that is not valid UTF-8, the renderer
returns its base64 text, and the renderer is a deterministic function —
an identical byte sequence always produces the identical output. -/
theorem c2_invalid_utf8_bytes_rendered_base64 (b : List Nat)
    (h : utf8Decode b = none) :
    convert_objectid_to_str (Value.bytes b) = Value.str (b64encode b) ∧
    ∀ b2, b2 = b → convert_objectid_to_str (Value.bytes b2) =
      convert_objectid_to_str (Value.bytes b) :=
  ⟨rfl, fun _ he => by rw [he]⟩

/-- C2, witness: the theorem applied to the genuinely invalid UTF-8 byte
sequence `[0xFF, 0xFE]`, whose base64 text is `//4=`. -/
theorem c2_invalid_utf8_bytes_rendered_base64_witness :
    utf8Decode [255, 254] = none ∧
    convert_objectid_to_str (Value.bytes [255, 254]) =
      Value.str (b64encode [255, 254]) ∧
    b64encode [255, 254] = "//4=" :=
  ⟨by decide, (c2_invalid_utf8_bytes_rendered_base64 [255, 254] (by decide)).1,
   by decide⟩

/-- C3, counterexample: an opaque identifier occurring as an element of a
sequence is NOT rendered as its hex string — the whole document passes
through `convert_objectid_to_str` unchanged, because the list branch
recurses into `convert_objectid_to_str` whose scalar fallthrough is
`handle_non_utf8`, which leaves an `ObjectId` untouched (it is not
`bytes` and has no `decode` attribute). -/
theorem c3_counterexample_objectid_in_sequence_unrendered :
    convert_objectid_to_str
        (Value.dict [("refs", Value.list [Value.objectId oid12])]) =
      Value.dict [("refs", Value.list [Value.objectId oid12])] ∧
    Value.objectId oid12 ≠ Value.str (hexOfBytes oid12) :=
  ⟨rfl, fun hcontra => Value.noConfusion hcontra⟩

/-- C3, amended: the normalization recurses on mapping values and on
sequence elements, and an opaque identifier occurring as a direct mapping
value is rendered as its canonical lowercase hex string — a rendering
that is injective over byte-valued identifiers — but an identifier
occurring as a sequence element (or as a bare scalar) is passed through
unchanged rather than hex-rendered. -/
theorem c3_objectid_hex_rendering_scoped_to_mapping_values :
    (∀ es, convert_objectid_to_str (Value.list es) =
        Value.list (es.map convert_objectid_to_str))
    ∧ (∀ kvs, convert_objectid_to_str (Value.dict kvs) =
        Value.dict (kvs.map fun kv => (kv.1, convertDictValue kv.2)))
    ∧ (∀ kvs k oid, kvs.lookup k = some (Value.objectId oid) →
        (convertFields kvs).lookup k = some (Value.str (hexOfBytes oid)))
    ∧ (∀ oid, ∀ c ∈ (hexOfBytes oid).data, isLowerHexChar c = true)
    ∧ (∀ b1 b2, (∀ x ∈ b1, x < 256) → (∀ x ∈ b2, x < 256) →
        hexOfBytes b1 = hexOfBytes b2 → b1 = b2)
    ∧ (∀ oid, convert_objectid_to_str (Value.objectId oid) = Value.objectId oid) := by
  refine ⟨?_, ?_, lookup_convertFields, isLowerHexChar_of_mem_hexOfBytes,
    hexOfBytes_injOn, fun _ => rfl⟩
  · intro es
    rw [convert_objectid_to_str, convertElems_eq_map]
  · intro kvs
    rw [convert_objectid_to_str, convertFields_eq_map]

/-- C3, witness: the scoped-rendering theorem applied at concrete inputs
— hex rendering of an identifier stored under the key `_id`, lowercase
membership of a concrete digit, and injectivity at the sample
identifier. -/
theorem c3_objectid_hex_rendering_scoped_to_mapping_values_witness :
    (convertFields [("_id", Value.objectId oid12)]).lookup "_id" =
      some (Value.str (hexOfBytes oid12)) ∧
    isLowerHexChar '5' = true ∧
    oid12 = oid12 :=
  ⟨c3_objectid_hex_rendering_scoped_to_mapping_values.2.2.1
      [("_id", Value.objectId oid12)] "_id" oid12 rfl,
   c3_objectid_hex_rendering_scoped_to_mapping_values.2.2.2.1 oid12 '5'
      (by decide),
   c3_objectid_hex_rendering_scoped_to_mapping_values.2.2.2.2.1 oid12 oid12
      (by decide) (by decide) rfl⟩

/-- C7: a delete request whose key matches no stored document fails the
existence check (`find_one` returns the absent sentinel, with or without
a storage fault) and yields the not-found error with the store left
untouched — no deletion is performed and no success is ever reported. -/
theorem c7_delete_absent_key_not_found (findFault delFault : Bool)
    (st : DBState) (branch_id : Int)
    (h : findFirst (st.getColl "Branch") [("branch_id", Value.int branch_id)] = none) :
    delete_branch findFault delFault st branch_id =
      (st, Except.error ⟨400, "Branch not found"⟩) := by
  cases findFault <;> simp [delete_branch, Database.find_one, h]

/-- C7, witness: deleting key 1 from an empty store. -/
theorem c7_delete_absent_key_not_found_witness :
    delete_branch false false ⟨[]⟩ 1 =
      (⟨[]⟩, Except.error ⟨400, "Branch not found"⟩) :=
  c7_delete_absent_key_not_found false false ⟨[]⟩ 1 rfl

/-- C9: a storage fault on `find_one` is swallowed into the absent
sentinel `none` — exactly the value returned for a key that matches
nothing, so the caller cannot distinguish the two — while a storage fault
on `insert_one` is surfaced as the generic
`HTTPException(500, "Internal Server Error")`. -/
theorem c9_read_write_fault_asymmetry (st : DBState) (coll : String) (q d : Doc) :
    Database.find_one true st coll q = none
    ∧ (findFirst (st.getColl coll) q = none →
        Database.find_one false st coll q = none)
    ∧ Database.insert_one true st coll d =
        Except.error ⟨500, "Internal Server Error"⟩ := by
  refine ⟨rfl, fun h => ?_, rfl⟩
  simp [Database.find_one, h]

/-- C4: the partial-update contract of the update endpoint — a payload
that filters to the empty field set is rejected with the validation
failure "No data provided to update" before any storage call (never a
silent no-op success); a non-empty filtered payload is forwarded to
storage exactly as filtered; and a set-update can only leave documents
that are old documents or old documents overwritten precisely at the
forwarded fields: any field absent from the forwarded set keeps its
stored value. -/
theorem c4_partial_update_contract :
    (∀ fault st branch_id p, p.fields.isEmpty = true →
        update_branch fault st branch_id p =
          (st, Except.error ⟨400, "No data provided to update"⟩))
    ∧ (∀ st branch_id p, p.fields.isEmpty = false →
        (update_branch false st branch_id p).1.getColl "Branch" =
          (updateFirstMatch (st.getColl "Branch")
            [("branch_id", Value.int branch_id)] p.fields).1)
    ∧ (∀ docs q upd d, d ∈ (updateFirstMatch docs q upd).1 →
        d ∈ docs ∨ ∃ d0, d0 ∈ docs ∧ d = setFields d0 upd)
    ∧ (∀ d upd k, upd.lookup k = none →
        (setFields d upd).lookup k = d.lookup k) := by
  refine ⟨?_, ?_, updateFirstMatch_mem, lookup_setFields_of_not_mem⟩
  · intro fault st bid p hp
    simp [update_branch, hp]
  · intro st bid p hp
    rw [update_branch]
    simp only [hp, Bool.false_eq_true, if_false, Database.update_one]
    split <;> exact getColl_setColl_self st "Branch" _

/-- C4, witness: the contract theorem at concrete inputs — empty payload
rejected on an empty store; singleton payload forwarded; a no-op update
over a singleton collection; an untouched key preserved. -/
theorem c4_partial_update_contract_witness :
    update_branch false ⟨[]⟩ 1 ⟨[]⟩ =
      (⟨[]⟩, Except.error ⟨400, "No data provided to update"⟩)
    ∧ (update_branch false ⟨[]⟩ 1 ⟨[("branch_name", Value.str "B")]⟩).1.getColl "Branch"
        = (updateFirstMatch ((⟨[]⟩ : DBState).getColl "Branch")
            [("branch_id", Value.int 1)] [("branch_name", Value.str "B")]).1
    ∧ (([] : Doc) ∈ [([] : Doc)] ∨
        ∃ d0, d0 ∈ [([] : Doc)] ∧ ([] : Doc) = setFields d0 [])
    ∧ (setFields [] [("a", Value.int 1)]).lookup "b" = ([] : Doc).lookup "b" :=
  ⟨c4_partial_update_contract.1 false ⟨[]⟩ 1 ⟨[]⟩ rfl,
   c4_partial_update_contract.2.1 ⟨[]⟩ 1 ⟨[("branch_name", Value.str "B")]⟩ rfl,
   c4_partial_update_contract.2.2.1 [([] : Doc)] [] [] []
     (by rw [show (updateFirstMatch [([] : Doc)] [] []).1 = [([] : Doc)] from rfl]
         exact List.mem_singleton.mpr rfl),
   c4_partial_update_contract.2.2.2 [] [("a", Value.int 1)] "b" rfl⟩

theorem branchKeyMatches_toDoc (b : Branch) :
    branchKeyMatches b.branch_id b.toDoc = true := by
  simp [branchKeyMatches, Branch.toDoc, List.lookup]

/-- C5: inserting the same branch twice — identical natural key — makes
both calls succeed and leaves two more documents carrying that key in the
collection: no uniqueness check is performed before or during insert. -/
theorem c5_duplicate_natural_key_inserts_both_succeed (st : DBState)
    (b : Branch) (now1 now2 : Int) :
    ∃ st1 st2 r1 r2,
      create_branch false st b now1 = (st1, Except.ok r1)
      ∧ create_branch false st1 b now2 = (st2, Except.ok r2)
      ∧ countBranchDocs st2 b.branch_id = countBranchDocs st b.branch_id + 2 := by
  refine ⟨_, _, _, _, rfl, rfl, ?_⟩
  have hsame : ∀ (x : Branch) (now : Int),
      (if x.branch_added.isNone then { x with branch_added := some now } else x).branch_id
        = x.branch_id := by
    intro x now; split <;> rfl
  have key : ∀ (x : Branch), x.branch_id = b.branch_id →
      (List.filter (branchKeyMatches b.branch_id) [x.toDoc]).length = 1 := by
    intro x hx
    have hm := branchKeyMatches_toDoc x
    rw [hx] at hm
    simp [List.filter, hm]
  simp only [countBranchDocs]
  rw [getColl_setColl_self, getColl_setColl_self]
  rw [List.filter_append, List.filter_append, List.length_append, List.length_append]
  rw [key _ (hsame b now1), key _ (hsame b now2)]

/-- C6: the list-all endpoint returns at most 200 documents, and exactly
200 when the collection holds 250. -/
theorem c6_list_all_capped_at_200 (st : DBState) :
    ∃ ys, get_all_branches st = Value.list ys ∧ ys.length ≤ 200 ∧
      ((st.getColl "Branch").length = 250 → ys.length = 200) := by
  refine ⟨_, rfl, ?_, ?_⟩
  · rw [convertElems_eq_map]
    simp [List.length_take]
  · intro h
    rw [convertElems_eq_map]
    simp [List.length_take, h]

/-- C6, witness: the cap theorem at a store of 250 documents. -/
theorem c6_list_all_capped_at_200_witness :
    ∃ ys, get_all_branches st250 = Value.list ys ∧ ys.length = 200 := by
  obtain ⟨ys, h1, _, h3⟩ := c6_list_all_capped_at_200 st250
  have hc : st250.getColl "Branch" = List.replicate 250 [] := rfl
  exact ⟨ys, h1, h3 (by rw [hc, List.length_replicate])⟩

/-- C8, evaluation at the failing input: an `Order` payload arriving with
`restaurants_id` as the base64 string `AQID` should, per the claim, be
stored with that field decoded to the raw bytes `[1, 2, 3]`.  Instead the
constructed model — and hence the stored document — carries no
`restaurants_id` (or `address_id`) field at all: the two names targeted
by the `Order` validators are not `Order` fields, so the base64-to-binary
conversion never fires on the `Order` write path. -/
theorem c8_order_reference_field_never_converted :
    b64decode "AQID" = some [1, 2, 3]
    ∧ mkOrder orderRawPayload = some orderStoredDoc
    ∧ orderStoredDoc.lookup "restaurants_id" = none
    ∧ orderStoredDoc.lookup "address_id" = none
    ∧ (create_order false ⟨[]⟩ orderStoredDoc).1.getColl "orders" = [orderStoredDoc]
    ∧ (create_order false ⟨[]⟩ orderStoredDoc).2 =
        Except.ok [("message", Value.str "Order created successfully"),
                   ("order_id", Value.str "o1")] :=
  ⟨by decide, rfl, rfl, rfl, rfl, rfl⟩

/-- C10: for the adapter, a storage fault on `update_one` or `delete_one`
yields the empty result mapping, which every endpoint guard treats
exactly like a zero modified/deleted count; consequently a faulting
update is indistinguishable from an update matching nothing (same error,
same observable store), and the update/delete endpoints can only ever
fail with status 400 — never 500; a faulting delete behind a passing
existence check likewise yields the same 400 failure as a zero deleted
count. -/
theorem c10_update_delete_fault_like_nomatch :
    (∀ st coll q u, (Database.update_one true st coll q u).2 = []
        ∧ (Database.delete_one true st coll q).2 = [])
    ∧ (∀ result key, dictGetNat result key = 0 →
        resultCountPositive result key = resultCountPositive [] key)
    ∧ (∀ st branch_id p, p.fields.isEmpty = false →
        findFirst (st.getColl "Branch") [("branch_id", Value.int branch_id)] = none →
        (update_branch true st branch_id p).2 = (update_branch false st branch_id p).2
        ∧ update_branch true st branch_id p =
            (st, Except.error ⟨400, "Failed to update branch"⟩)
        ∧ ∀ c, (update_branch false st branch_id p).1.getColl c = st.getColl c)
    ∧ (∀ fault st branch_id p st2 e,
        update_branch fault st branch_id p = (st2, Except.error e) →
        e.status_code = 400)
    ∧ (∀ f g st branch_id st2 e,
        delete_branch f g st branch_id = (st2, Except.error e) →
        e.status_code = 400)
    ∧ (∀ st branch_id d,
        findFirst (st.getColl "Branch") [("branch_id", Value.int branch_id)] = some d →
        d.isEmpty = false →
        delete_branch false true st branch_id =
          (st, Except.error ⟨400, "Failed to delete branch"⟩)) := by
  refine ⟨fun st coll q u => ⟨rfl, rfl⟩, ?_, ?_, ?_, ?_, ?_⟩
  · intro result key h
    simp [resultCountPositive, h]
  · intro st bid p hp h
    have hall : ∀ d ∈ st.getColl "Branch",
        matchesQuery d [("branch_id", Value.int bid)] = false := by
      intro d hd
      have := List.find?_eq_none.mp h d hd
      simpa using this
    have hupd := updateFirstMatch_nomatch (st.getColl "Branch")
      [("branch_id", Value.int bid)] p.fields hall
    refine ⟨?_, ?_, ?_⟩
    · rw [update_branch, update_branch]
      simp [hp, Database.update_one, hupd, resultCountPositive, dictGetNat]
    · rw [update_branch]
      simp [hp, Database.update_one, resultCountPositive]
    · intro c
      rw [update_branch]
      simp only [hp, Bool.false_eq_true, if_false, Database.update_one, hupd,
        if_false]
      have : resultCountPositive [("modified_count", 0)] "modified_count" = false := by
        simp [resultCountPositive, dictGetNat]
      rw [this]
      simp only [Bool.false_eq_true, if_false]
      by_cases hc : c = "Branch"
      · subst hc; exact getColl_setColl_self st "Branch" _
      · exact getColl_setColl_ne st "Branch" c _ hc
  · intro fault st bid p st2 e h
    rw [update_branch] at h
    cases hp : p.fields.isEmpty with
    | true =>
        rw [hp] at h
        simp only [if_true] at h
        have := congrArg Prod.snd h
        simp only at this
        cases this
        rfl
    | false =>
        rw [hp] at h
        simp only [Bool.false_eq_true, if_false] at h
        split at h
        · have := congrArg Prod.snd h
          simp at this
        · have := congrArg Prod.snd h
          simp only at this
          cases this
          rfl
  · intro f g st bid st2 e h
    rw [delete_branch] at h
    split at h
    · have := congrArg Prod.snd h
      simp only at this
      cases this
      rfl
    · dsimp only at h
      split at h
      · have := congrArg Prod.snd h
        simp at this
      · have := congrArg Prod.snd h
        simp only at this
        cases this
        rfl
  · intro st bid d h hd
    rw [delete_branch]
    rw [show Database.find_one false st "Branch" [("branch_id", Value.int bid)] =
          some (convert_objectid_to_str (Value.dict d)) by
        simp [Database.find_one, h, hd]]
    rfl

/-- C10, witness: the fault-indistinguishability theorem at concrete
inputs — fault results empty; guard equality at a zero count; faulting
versus no-match update on an empty store; 400-only failures for a
rejected empty update and an absent-key delete; and a faulting delete
behind a passing existence check. -/
theorem c10_update_delete_fault_like_nomatch_witness :
    (Database.update_one true ⟨[]⟩ "Branch" [] []).2 = []
    ∧ resultCountPositive [("modified_count", 0)] "modified_count" =
        resultCountPositive [] "modified_count"
    ∧ (update_branch true ⟨[]⟩ 1 ⟨[("branch_name", Value.str "B")]⟩).2 =
        (update_branch false ⟨[]⟩ 1 ⟨[("branch_name", Value.str "B")]⟩).2
    ∧ (HTTPException.mk 400 "No data provided to update").status_code = 400
    ∧ (HTTPException.mk 400 "Branch not found").status_code = 400
    ∧ delete_branch false true stOneBranch 1 =
        (stOneBranch, Except.error ⟨400, "Failed to delete branch"⟩) :=
  ⟨(c10_update_delete_fault_like_nomatch.1 ⟨[]⟩ "Branch" [] []).1,
   c10_update_delete_fault_like_nomatch.2.1 [("modified_count", 0)]
     "modified_count" rfl,
   (c10_update_delete_fault_like_nomatch.2.2.1 ⟨[]⟩ 1
     ⟨[("branch_name", Value.str "B")]⟩ rfl rfl).1,
   c10_update_delete_fault_like_nomatch.2.2.2.1 false ⟨[]⟩ 1 ⟨[]⟩ ⟨[]⟩
     ⟨400, "No data provided to update"⟩ rfl,
   c10_update_delete_fault_like_nomatch.2.2.2.2.1 false false ⟨[]⟩ 1 ⟨[]⟩
     ⟨400, "Branch not found"⟩ rfl,
   c10_update_delete_fault_like_nomatch.2.2.2.2.2 stOneBranch 1
     [("branch_id", Value.int 1)] rfl rfl⟩

/-- C9, witness: the asymmetry theorem at an empty store. -/
theorem c9_read_write_fault_asymmetry_witness :
    Database.find_one true ⟨[]⟩ "Branch" [] = none
    ∧ Database.find_one false ⟨[]⟩ "Branch" [] = none
    ∧ Database.insert_one true ⟨[]⟩ "Branch" [] =
        Except.error ⟨500, "Internal Server Error"⟩ :=
  ⟨(c9_read_write_fault_asymmetry ⟨[]⟩ "Branch" [] []).1,
   (c9_read_write_fault_asymmetry ⟨[]⟩ "Branch" [] []).2.1 rfl,
   (c9_read_write_fault_asymmetry ⟨[]⟩ "Branch" [] []).2.2⟩
